import Mathlib

/-
Shallow embedding of the gearbest-scraper repository (Python) in Lean 4.

Sources embedded:
  gearbest_scraping/gearbest_parser.py   (GearbestParser)
  gearbest_scraping/gearbest_scraper.py  (GearbestScraper)
  data_classes/data_parser.py            (DataParser)
  data_classes/category_data.py, item_data.py, price_data.py, review_data.py

Modelling conventions:
  * Python exceptions are modelled with `Except PyErr`; each constructor of
    `PyErr` names the Python exception class raised by the code.
  * BeautifulSoup documents are modelled structurally: each page model is a
    record holding exactly the fragments the parser under verification
    queries (a `find` that can miss is an `Option`, an attribute lookup via
    `.get` that can miss is an `Option`, and so on).  A bs4 `Tag` object is
    always truthy, a `str` is truthy iff nonempty, `None` is falsy.
  * `datetime.datetime` values are modelled by the `DateTime` record below,
    compared lexicographically as in Python.
  * Machine floats never influence control flow except through
    `float(s)` conversion errors and truthiness of the resulting value; both
    are modelled on the reachable domain (strings of digits and dots).
-/

set_option autoImplicit false

/-- Python exception kinds raised by the embedded code. `parsingError` is the
repository's own `gearbest_scraping.errors.parsing_error.ParsingError`. -/
inductive PyErr where
  | valueError
  | typeError
  | attributeError
  | keyError
  | parsingError
deriving DecidableEq, Repr

/-- Python truthiness of an optional string: `None` and `""` are falsy. -/
def pyTruthyStr : Option String → Bool
  | none => false
  | some s => s ≠ ""

/-- Python truthiness of an optional float held as its numeric source string
(digits and dots): the value `0.0` is falsy, so the string is truthy iff it
contains a nonzero digit. -/
def pyTruthyNumStr : Option String → Bool
  | none => false
  | some s => s.data.any (fun c => c.isDigit && c ≠ '0')

/-- Python `s.rstrip(c)`: drop trailing occurrences of `c`. -/
def rstripChar (s : String) (c : Char) : String :=
  ⟨(s.data.reverse.dropWhile (· = c)).reverse⟩

/-- Python `s.strip(c)`: drop leading and trailing occurrences of `c`. -/
def stripChar (s : String) (c : Char) : String :=
  ⟨((s.data.dropWhile (· = c)).reverse.dropWhile (· = c)).reverse⟩

/-- Python `s.replace("\n", "")`. -/
def removeNl (s : String) : String :=
  ⟨s.data.filter (· ≠ '\n')⟩

/-- Python `s.rfind(c)`: index of the last occurrence of `c`, `-1` if absent. -/
def pyRfind (s : String) (c : Char) : Int :=
  match (s.data.reverse.findIdx? (· = c)) with
  | some j => (s.data.length : Int) - 1 - j
  | none => -1

/-- Python slice `s[start:stop]` with Python's negative-index convention. -/
def pySlice (s : String) (start stop : Int) : String :=
  let n := s.data.length
  let norm : Int → Nat := fun i =>
    if i < 0 then ((n : Int) + i).toNat else min i.toNat n
  let a := norm start
  let b := norm stop
  ⟨(s.data.take b).drop a⟩

/-! ### The identifier regex

`ID_PATTERN = "(pp|c)_.+?[/|.]"` from gearbest_parser.py, used with
`re.search`.  `re.search` returns the leftmost match; the lazy `.+?` consumes
the minimal nonempty run of non-newline characters before a character of the
class `[/|.]` (literally `/`, `|` or `.`). -/

/-- Membership in the character class `[/|.]`. -/
def isTermCh (c : Char) : Bool := c = '/' || c = '|' || c = '.'

/-- Match `.+?[/|.]` lazily against the text following the `(pp|c)_` prefix:
`acc` holds the (nonempty) body consumed so far; the first class character
closes the match. `.` does not match a newline. -/
def idBodyAux (acc : List Char) : List Char → Option (List Char)
  | [] => none
  | c :: rest =>
    if isTermCh c then some (acc ++ [c])
    else if c = '\n' then none
    else idBodyAux (acc ++ [c]) rest

/-- Match `.+?[/|.]` (body of at least one character, then one class char). -/
def idBody : List Char → Option (List Char)
  | [] => none
  | c0 :: rest => if c0 = '\n' then none else idBodyAux [c0] rest

/-- `re.search(ID_PATTERN, text)`: try the alternation `(pp|c)_` at each
position, leftmost first, and return the matched substring. -/
def idSearchAux : List Char → Option (List Char)
  | [] => none
  | c :: rest =>
    let here : Option (List Char) :=
      if (c :: rest).take 3 = ['p', 'p', '_'] then
        (idBody ((c :: rest).drop 3)).map (['p', 'p', '_'] ++ ·)
      else if (c :: rest).take 2 = ['c', '_'] then
        (idBody ((c :: rest).drop 2)).map (['c', '_'] ++ ·)
      else none
    match here with
    | some m => some m
    | none => idSearchAux rest

/-- `re.search(ID_PATTERN, s)` returning `.group()` on success, `none` when
there is no match (in which case the Python `.group()` call raises
`AttributeError` on `None`). -/
def idSearch (s : String) : Option String :=
  (idSearchAux s.data).map (fun l => ⟨l⟩)

/-! ### datetime and strptime

`REVIEW_DATE_FORMAT_BASIC = '%b %d,%Y'` and
`REVIEW_DATE_FORMAT_COMPLEX = '%b %d,%Y %H:%M:%S'`.  CPython's `strptime`
matches `%b` case-insensitively against the month abbreviations, a space in
the format against one or more whitespace characters, `%d`/`%H`/`%M`/`%S`
against one or two digits (range-checked), `%Y` against exactly four digits,
requires the whole input to be consumed, and the final `datetime` constructor
rejects out-of-range days. -/

/-- Python `datetime.datetime`, restricted to the fields the code uses. -/
structure DateTime where
  year : Nat
  month : Nat
  day : Nat
  hour : Nat
  minute : Nat
  second : Nat
deriving DecidableEq, Repr

/-- Python `datetime < datetime`: lexicographic comparison. -/
def dtLt (a b : DateTime) : Bool :=
  if a.year ≠ b.year then a.year < b.year
  else if a.month ≠ b.month then a.month < b.month
  else if a.day ≠ b.day then a.day < b.day
  else if a.hour ≠ b.hour then a.hour < b.hour
  else if a.minute ≠ b.minute then a.minute < b.minute
  else a.second < b.second

/-- Month number of a lowercase three-letter abbreviation. -/
def monthNum : List Char → Option Nat
  | ['j', 'a', 'n'] => some 1
  | ['f', 'e', 'b'] => some 2
  | ['m', 'a', 'r'] => some 3
  | ['a', 'p', 'r'] => some 4
  | ['m', 'a', 'y'] => some 5
  | ['j', 'u', 'n'] => some 6
  | ['j', 'u', 'l'] => some 7
  | ['a', 'u', 'g'] => some 8
  | ['s', 'e', 'p'] => some 9
  | ['o', 'c', 't'] => some 10
  | ['n', 'o', 'v'] => some 11
  | ['d', 'e', 'c'] => some 12
  | _ => none

/-- `%b`: case-insensitive month abbreviation. -/
def matchMonth (cs : List Char) : Option (Nat × List Char) :=
  match monthNum ((cs.take 3).map Char.toLower) with
  | some m => some (m, cs.drop 3)
  | none => none

/-- A single format-string space: one or more whitespace characters. -/
def matchWs1 : List Char → Option (List Char)
  | c :: rest => if c.isWhitespace then some (rest.dropWhile Char.isWhitespace) else none
  | [] => none

def digitVal (c : Char) : Nat := c.toNat - 48

/-- One or two digits (`%d`, `%H`, `%M`, `%S`), taken greedily. -/
def matchNum2 : List Char → Option (Nat × List Char)
  | a :: b :: rest =>
    if a.isDigit then
      if b.isDigit then some (digitVal a * 10 + digitVal b, rest)
      else some (digitVal a, b :: rest)
    else none
  | [a] => if a.isDigit then some (digitVal a, []) else none
  | [] => none

/-- Exactly four digits (`%Y`). -/
def matchNum4 : List Char → Option (Nat × List Char)
  | a :: b :: c :: d :: rest =>
    if a.isDigit && b.isDigit && c.isDigit && d.isDigit then
      some (((digitVal a * 10 + digitVal b) * 10 + digitVal c) * 10 + digitVal d, rest)
    else none
  | _ => none

/-- A literal character of the format string. -/
def matchChar (ch : Char) : List Char → Option (List Char)
  | c :: rest => if c = ch then some rest else none
  | [] => none

def isLeapYear (y : Nat) : Bool := (y % 4 = 0 && y % 100 ≠ 0) || y % 400 = 0

def daysInMonth (y m : Nat) : Nat :=
  if m = 2 then (if isLeapYear y then 29 else 28)
  else if m = 4 || m = 6 || m = 9 || m = 11 then 30
  else 31

/-- The shared `%b %d,%Y` date part of both formats, returning the rest of
the input; range checks of `strptime` and the `datetime` constructor. -/
def matchDate (cs : List Char) : Option (Nat × Nat × Nat × List Char) :=
  match matchMonth cs with
  | none => none
  | some (mo, cs1) =>
    match matchWs1 cs1 with
    | none => none
    | some cs2 =>
      match matchNum2 cs2 with
      | none => none
      | some (d, cs3) =>
        match matchChar ',' cs3 with
        | none => none
        | some cs4 =>
          match matchNum4 cs4 with
          | none => none
          | some (y, cs5) =>
            if 1 ≤ d && d ≤ daysInMonth y mo && 1 ≤ y then some (y, mo, d, cs5)
            else none

/-- `datetime.strptime(s, '%b %d,%Y')`, `none` for `ValueError`. -/
def strptime_basic (s : String) : Option DateTime :=
  match matchDate s.data with
  | some (y, mo, d, []) => some ⟨y, mo, d, 0, 0, 0⟩
  | _ => none

/-- `datetime.strptime(s, '%b %d,%Y %H:%M:%S')`, `none` for `ValueError`. -/
def strptime_complex (s : String) : Option DateTime :=
  match matchDate s.data with
  | none => none
  | some (y, mo, d, cs) =>
    match matchWs1 cs with
    | none => none
    | some cs1 =>
      match matchNum2 cs1 with
      | none => none
      | some (h, cs2) =>
        match matchChar ':' cs2 with
        | none => none
        | some cs3 =>
          match matchNum2 cs3 with
          | none => none
          | some (mi, cs4) =>
            match matchChar ':' cs4 with
            | none => none
            | some cs5 =>
              match matchNum2 cs5 with
              | some (sec, []) =>
                if h ≤ 23 && mi ≤ 59 && sec ≤ 61 then some ⟨y, mo, d, h, mi, sec⟩
                else none
              | _ => none

/-- The `time` computation of `retrieve_review_data_from_review`
(gearbest_parser.py lines 375-380):

    try:
        time = datetime.datetime.strptime(time_text, REVIEW_DATE_FORMAT_BASIC)
    except ValueError:
        time = datetime.datetime.strptime(time_text, REVIEW_DATE_FORMAT_COMPLEX)
    except Exception:
        time = None

A `ValueError` raised by the second `strptime` call occurs inside the first
`except` handler, so it is NOT caught by the sibling `except Exception`
clause and propagates to the caller.  The `except Exception: time = None`
branch is unreachable for string input, since `strptime` only raises
`ValueError` there. -/
def retrieve_review_time (time_text : String) : Except PyErr (Option DateTime) :=
  match strptime_basic time_text with
  | some t => .ok (some t)
  | none =>
    match strptime_complex time_text with
    | some t => .ok (some t)
    | none => .error .valueError

/-! ### parse_price (gearbest_parser.py lines 31-49) -/

/-- The per-character test of `parse_price`: `char == "." or char.isdigit()`
(`str.isdigit` and `Char.isDigit` agree on the ASCII price strings of this
domain). -/
def isPriceChar (ch : Char) : Bool := ch = '.' || ch.isDigit

/-- The character-classification loop of `parse_price`: one left-to-right
pass appending each digit-or-dot to the price and every other character to
the currency. -/
def price_pass : List Char → List Char → List Char → List Char × List Char
  | [], p, c => (p, c)
  | ch :: rest, p, c =>
    if isPriceChar ch then price_pass rest (p ++ [ch]) c
    else price_pass rest p (c ++ [ch])

/-- `GearbestParser.parse_price(input_price, default_locale)`.  A `None`
input raises `TypeError` when the `for` statement iterates it.  An empty
currency is replaced by the default locale. -/
def parse_price (input_price : Option String) (default_locale : String) :
    Except PyErr (String × String) :=
  match input_price with
  | none => .error .typeError
  | some s =>
    let pc := price_pass s.data [] []
    .ok (⟨pc.1⟩, if pc.2 = [] then default_locale else ⟨pc.2⟩)

/-- Validity of `float(s)` on strings made of digits and dots: at least one
digit and at most one dot (`float("")`, `float(".")`, `float("1.2.3")` all
raise `ValueError`). -/
def validFloatStr (s : String) : Bool :=
  s.data.any Char.isDigit && s.data.count '.' ≤ 1

/-! ### Review elements and retrieve_reviews_from_item
(gearbest_parser.py lines 287-395) -/

/-- One `li.goodsReviews_item` element, holding exactly the fragments the
parser queries: texts of found tags, the `data-review-id` attribute, the
star marker with its `data-index` attribute (outer `Option`: the `i` tag is
present; inner: the attribute is present), and the `(dt, dd)` text pairs of
the `dl.goodsReviews_itemCont` elements. -/
structure ReviewElement where
  userNameTag : Option String
  dataReviewId : Option String
  titleTag : Option String
  ratingStar : Option (Option String)
  attrTag : Option String
  contTexts : List (Option String × Option String)
  timeTag : Option String
deriving DecidableEq, Repr

/-- The dictionary built per review by `retrieve_reviews_from_item`.  A key
that is never written is `none`. `review_text` is always written (possibly
as the empty string). -/
structure ReviewRecord where
  user_name : Option String
  user_id : Option String
  review_title : Option String
  review_rating : Option String
  review_attributes : Option String
  review_text : String
  post_timestamp : Option DateTime
  item_id : Option String
deriving DecidableEq, Repr

/-- `GearbestParser.parse_user_rating(review)`: the `data-index` attribute of
the `i.rating_full` marker, `None` when the marker is absent (a present tag
is always truthy; `.get` may itself return `None`). -/
def parse_user_rating (e : ReviewElement) : Option String :=
  match e.ratingStar with
  | some attr => attr
  | none => none

/-- `GearbestParser.retrieve_username_and_id_from_review(review)`: `None`
when the user-name tag is missing or the `data-review-id` attribute is
missing or empty (`if not user_name_tag or not user_name_id`). -/
def retrieve_username_and_id_from_review (e : ReviewElement) :
    Option (String × String) :=
  match e.userNameTag, e.dataReviewId with
  | some n, some i => if i = "" then none else some (n, i)
  | _, _ => none

/-- The `review_text` accumulation over the `dl.goodsReviews_itemCont`
elements: for each, append `"\n" + dt text` and `"\n" + dd text` when the
respective child is present. -/
def build_review_text (texts : List (Option String × Option String)) : String :=
  texts.foldl
    (fun acc p =>
      let acc1 := match p.1 with
        | some dt => acc ++ "\n" ++ dt
        | none => acc
      match p.2 with
      | some dd => acc1 ++ "\n" ++ dd
      | none => acc1)
    ""

/-- The five data fields returned by `retrieve_review_data_from_review`. -/
structure ReviewFields where
  review_title : Option String
  review_rating : Option String
  review_attributes : Option String
  review_text : String
  post_timestamp : Option DateTime
deriving DecidableEq, Repr

/-- `GearbestParser.retrieve_review_data_from_review(review)`: always returns
a five-key dictionary, except that the timestamp parse can raise (see
`retrieve_review_time`).  The time text is stripped before parsing. -/
def retrieve_review_data_from_review (e : ReviewElement) :
    Except PyErr ReviewFields :=
  let title := e.titleTag
  let rating := parse_user_rating e
  let attrs := e.attrTag
  let text := build_review_text e.contTexts
  match e.timeTag with
  | none => .ok ⟨title, rating, attrs, text, none⟩
  | some t =>
    match retrieve_review_time t.trim with
    | .ok time => .ok ⟨title, rating, attrs, text, time⟩
    | .error err => .error err

/-- A fetched reviews page: presence of the `js-reviewWrap` container, the
canonical `link` tag (outer `Option`) with its `href` (inner `Option`), and
the `li.goodsReviews_item` elements. -/
structure ReviewsPageDoc where
  reviewsDivPresent : Bool
  canonical : Option (Option String)
  reviewElements : List ReviewElement
deriving DecidableEq, Repr

/-- The item-id computation of `retrieve_reviews_from_item` (lines 301-305):
`re.search(ID_PATTERN, None)` raises `TypeError` when the canonical tag has
no `href`; `.group()` on a failed search raises `AttributeError`. -/
def reviews_item_id (canonical : Option (Option String)) :
    Except PyErr (Option String) :=
  match canonical with
  | none => .ok none
  | some none => .error .typeError
  | some (some href) =>
    match idSearch href with
    | none => .error .attributeError
    | some m => .ok (some (rstripChar m '.'))

/-- The per-element body of the loop in `retrieve_reviews_from_item` (lines
313-326).  `review_dict.update(review_data)` always runs (the data dict has
five keys, hence is truthy), so after it `review_dict` is nonempty and the
`if review_dict:` guard always appends a record. -/
def build_review_record (item_id : Option String) (e : ReviewElement) :
    Except PyErr ReviewRecord :=
  let user := retrieve_username_and_id_from_review e
  match retrieve_review_data_from_review e with
  | .error err => .error err
  | .ok d =>
    .ok { user_name := user.map Prod.fst
          user_id := user.map Prod.snd
          review_title := d.review_title
          review_rating := d.review_rating
          review_attributes := d.review_attributes
          review_text := d.review_text
          post_timestamp := d.post_timestamp
          item_id := item_id }

/-- The review loop of `retrieve_reviews_from_item`, element by element in
page order; an exception from any element propagates. -/
def build_review_records (item_id : Option String) :
    List ReviewElement → Except PyErr (List ReviewRecord)
  | [] => .ok []
  | e :: rest =>
    match build_review_record item_id e with
    | .error err => .error err
    | .ok r => (build_review_records item_id rest).map (r :: ·)

/-- `GearbestParser.retrieve_reviews_from_item(content)`: `None` when the
reviews container is absent or no review list elements are found; otherwise
one record per element. -/
def retrieve_reviews_from_item (d : ReviewsPageDoc) :
    Except PyErr (Option (List ReviewRecord)) :=
  if d.reviewsDivPresent = false then .ok none
  else
    match reviews_item_id d.canonical with
    | .error e => .error e
    | .ok item_id =>
      match d.reviewElements with
      | [] => .ok none
      | e :: rest =>
        match build_review_records item_id (e :: rest) with
        | .error err => .error err
        | .ok recs => .ok (some recs)

/-! ### Incremental review filtering and review pagination
(gearbest_scraper.py lines 191-256) -/

/-- The Python comparison `post_timestamp > last_seen_timestamp`: comparing
`None` with a `datetime` raises `TypeError`. -/
def pyGtTimestamp (ts : Option DateTime) (w : DateTime) : Except PyErr Bool :=
  match ts with
  | some t => .ok (dtLt w t)
  | none => .error .typeError

/-- The boolean the filtering is claimed to compute: the review's timestamp
is present and strictly greater than the watermark. -/
def pyGtB (ts : Option DateTime) (w : DateTime) : Bool :=
  match ts with
  | some t => dtLt w t
  | none => false

/-- `GearbestScraper._retrieve_review_deltas(reviews, last_seen_timestamp)`:
the list comprehension
`[r for r in reviews if r["post_timestamp"] > last_seen_timestamp]`,
evaluated left to right; the first failing comparison raises. -/
def retrieve_review_deltas (reviews : List ReviewRecord) (w : DateTime) :
    Except PyErr (List ReviewRecord) :=
  match reviews with
  | [] => .ok []
  | r :: rest =>
    match pyGtTimestamp r.post_timestamp w with
    | .error e => .error e
    | .ok true => (retrieve_review_deltas rest w).map (r :: ·)
    | .ok false => retrieve_review_deltas rest w

/-- One state of the review pagination: the parse result of the currently
loaded content, whether `retrieve_new_review_page_element` finds an enabled
next control, and whether the follow-through click succeeds. -/
structure ReviewPageContent where
  pageReviews : Option (List ReviewRecord)
  hasNextElement : Bool
  clickOk : Bool
deriving Repr

/-- `review_count < review_limit` where the limit defaults to `math.inf`
(`none`). -/
def countLt (c : Nat) : Option Nat → Bool
  | none => true
  | some m => c < m

/-- `max_products < parsed_count` where `math.inf` (`none`) exceeds every
count. -/
def maxLtCount (mx : Option Nat) (c : Nat) : Bool :=
  match mx with
  | none => false
  | some m => m < c

/-- The `while review_count < review_limit` loop of
`GearbestScraper.scrape_paginated_reviews_from_item` (lines 213-241).
`pages idx` is the content loaded after `idx` next-page clicks; `fuel` is a
modelling bound on the number of iterations (the Python loop is unbounded
when the limit is `math.inf`).  An empty or `None` parse returns the
accumulator; with a watermark, an empty filtered batch returns the
accumulator; otherwise the batch (filtered or whole) is appended and the
loop advances if an enabled next control exists and the click succeeds. -/
def scrape_paginated_reviews (pages : Nat → ReviewPageContent)
    (watermark : Option DateTime) (limit : Option Nat) :
    Nat → Nat → Nat → List ReviewRecord → Except PyErr (List ReviewRecord)
  | 0, _, _, acc => .ok acc
  | fuel + 1, idx, count, acc =>
    if countLt count limit then
      let page := pages idx
      let advance : List ReviewRecord → Except PyErr (List ReviewRecord) :=
        fun acc' =>
          if page.hasNextElement then
            if page.clickOk then
              scrape_paginated_reviews pages watermark limit fuel (idx + 1) (count + 1) acc'
            else .ok acc'
          else .ok acc'
      match page.pageReviews with
      | some (r :: rs) =>
        (match watermark with
         | some ts =>
           match retrieve_review_deltas (r :: rs) ts with
           | .error e => .error e
           | .ok [] => .ok acc
           | .ok (n :: ns) => advance (acc ++ n :: ns)
         | none => advance (acc ++ r :: rs))
      | _ => .ok acc
    else .ok acc

/-! ### Catalog pages (gearbest_parser.py lines 207-243) -/

/-- One `li.gbGoodsItem` product tile: outer `Option` is the presence of the
`a` child (`find('a')` returning `None` makes `.get` raise), inner `Option`
is its `href` attribute. -/
abbrev ItemTile := Option (Option String)

/-- The `a.pageNext` pagination anchor: its `class` attribute (absent class
makes `attrs["class"]` raise `KeyError`) and its `href`. -/
structure NextAnchor where
  classes : Option (List String)
  href : Option String
deriving DecidableEq, Repr

/-- A fetched catalog page: the primary `ul.js_seachResultList` (as its
tiles), the fallback `ul.brandList_content`, and the `div.cateMain_pages`
block (outer `Option`: the div; inner: the `a.pageNext` anchor). -/
structure CatalogContent where
  searchList : Option (List ItemTile)
  brandList : Option (List ItemTile)
  pagesDiv : Option (Option NextAnchor)
deriving DecidableEq, Repr

/-- The first comprehension of `parse_catalog_content`:
`[list_item.find('a').get('href') for list_item in list_items]`; a tile
without an `a` child raises `AttributeError`. -/
def collectHrefs : List ItemTile → Except PyErr (List (Option String))
  | [] => .ok []
  | none :: _ => .error .attributeError
  | some h :: rest => (collectHrefs rest).map (h :: ·)

/-- The item identifier derived from a tile URL:
`item_url[item_url.rfind("/") + 1 : item_url.rfind(".")]` with Python's
`rfind` returning `-1` when absent. -/
def itemIdFromUrl (u : String) : String :=
  pySlice u (pyRfind u '/' + 1) (pyRfind u '.')

/-- The second comprehension plus the final `zip`: each `None` href raises
`AttributeError` (`None.rfind`); otherwise the (identifier, URL) pairs in
tile order. -/
def collectIdUrls : List (Option String) → Except PyErr (List (String × String))
  | [] => .ok []
  | none :: _ => .error .attributeError
  | some u :: rest => (collectIdUrls rest).map ((itemIdFromUrl u, u) :: ·)

/-- `GearbestParser.parse_catalog_content(content)`.  A `None` page source
raises in the `BeautifulSoup` constructor; a missing UL raises
`AttributeError` (`None.find_all`); an UL with no matching tiles yields the
empty list. -/
def parse_catalog_content (content : Option CatalogContent) :
    Except PyErr (List (String × String)) :=
  match content with
  | none => .error .typeError
  | some c =>
    let ul : Option (List ItemTile) :=
      match c.searchList with
      | some l => some l
      | none => c.brandList
    match ul with
    | none => .error .attributeError
    | some tiles =>
      match collectHrefs tiles with
      | .error e => .error e
      | .ok hrefs =>
        match collectIdUrls hrefs with
        | .error e => .error e
        | .ok pairs => .ok pairs

/-- `GearbestParser.retrieve_next_page(content)`: raises `AttributeError`
when the pages div or the `pageNext` anchor is absent; returns `None` when
the anchor's classes contain `"disable"`, else the anchor's `href`. -/
def retrieve_next_page (content : Option CatalogContent) :
    Except PyErr (Option String) :=
  match content with
  | none => .error .typeError
  | some c =>
    match c.pagesDiv with
    | none => .error .attributeError
    | some none => .error .attributeError
    | some (some a) =>
      match a.classes with
      | none => .error .keyError
      | some cls =>
        if "disable" ∈ cls then .ok none else .ok a.href

/-! ### Catalog traversal (gearbest_scraper.py lines 63-110)

`scrape_item` (lines 123-153) is the per-item collaborator of the catalog
loop; toward this loop it acts as a function from an item URL to an optional
record (`None` on per-item failure), abstracted here as the `scrapeItem`
parameter.  A returned dictionary is nonempty (it always holds a timestamp),
so `if product:` is `Option.isSome`. -/

/-- The `for item_id, url in item_ids_and_urls` loop (lines 100-107): break
when `max_products < parsed_count` (checked before scraping), count only
non-`None` products, yield every product including `None`.  Returns the
yielded records and the updated count. -/
def catalog_item_loop {α : Type} (scrapeItem : String → Option α)
    (maxProducts : Option Nat) :
    List (String × String) → Nat → List (Option α) × Nat
  | [], c => ([], c)
  | (_, url) :: rest, c =>
    if maxLtCount maxProducts c then ([], c)
    else
      let p := scrapeItem url
      let c1 := if p.isSome then c + 1 else c
      let r := catalog_item_loop scrapeItem maxProducts rest c1
      (p :: r.1, r.2)

/-- The `while current_page and parsed_count < max_products` loop of
`scrape_paginated_catalog` (lines 85-110), as a generator returning the
yielded sequence together with the exception (if any) that ends it.
`fetch` is `retrieve_source_from_url` (`none` on timeout); `fuel` bounds the
number of iterations of the unbounded Python loop.  When the catalog parse
raises, the `except` clause yields `None` and falls through to the
`if not item_ids_and_urls` guard, which yields another `None` and raises
`ParsingError`; an empty parse result takes the same guard.  An exception
from `retrieve_next_page` propagates out of the generator. -/
def scrape_paginated_catalog {α : Type} (fetch : String → Option CatalogContent)
    (scrapeItem : String → Option α) (maxProducts : Option Nat) :
    Nat → Option String → Nat → List (Option α) × Option PyErr
  | 0, _, _ => ([], none)
  | _ + 1, none, _ => ([], none)
  | fuel + 1, some url, parsedCount =>
    if countLt parsedCount maxProducts then
      let content := fetch url
      match parse_catalog_content content with
      | .error _ => ([none, none], some .parsingError)
      | .ok [] => ([none], some .parsingError)
      | .ok (iu :: ius) =>
        let step := catalog_item_loop scrapeItem maxProducts (iu :: ius) parsedCount
        match retrieve_next_page content with
        | .error e => (step.1, some e)
        | .ok next =>
          let rest := scrape_paginated_catalog fetch scrapeItem maxProducts fuel next step.2
          (step.1 ++ rest.1, rest.2)
    else ([], none)

instance {ε α : Type} [DecidableEq ε] [DecidableEq α] : DecidableEq (Except ε α) := fun a b =>
  match a, b with
  | .error e, .error f =>
    if h : e = f then isTrue (congrArg Except.error h)
    else isFalse (fun hh => h (by injection hh))
  | .ok x, .ok y =>
    if h : x = y then isTrue (congrArg Except.ok h)
    else isFalse (fun hh => h (by injection hh))
  | .error _, .ok _ => isFalse (fun hh => by injection hh)
  | .ok _, .error _ => isFalse (fun hh => by injection hh)

/-- Truthiness-style check that a parse produced a nonempty item list. -/
def isOkNonempty : Except PyErr (List (String × String)) → Bool
  | .ok (_ :: _) => true
  | _ => false

/-- The items of a catalog page whose parse succeeds. -/
def catalogItems (c : CatalogContent) : List (String × String) :=
  match parse_catalog_content (some c) with
  | .ok l => l
  | .error _ => []

/-- A finite chain of catalog pages reachable from its first URL: each page
is fetched at its URL, parses to a nonempty item list, and links to the next
page's URL through `retrieve_next_page`; the last page's next lookup returns
`None`. -/
def chainOk (fetch : String → Option CatalogContent) :
    List (String × CatalogContent) → Bool
  | [] => true
  | (u, c) :: rest =>
    decide (fetch u = some c) &&
    isOkNonempty (parse_catalog_content (some c)) &&
    (match rest with
     | [] => decide (retrieve_next_page (some c) = .ok none)
     | (u2, _) :: _ => decide (retrieve_next_page (some c) = .ok (some u2))) &&
    chainOk fetch rest

/-- The URL of the first page of a chain. -/
def chainStart : List (String × CatalogContent) → Option String
  | [] => none
  | (u, _) :: _ => some u

/-- The concatenation, in page order, of every page's item records (each
item URL passed through the per-item scraper). -/
def chainOutputs {α : Type} (scrapeItem : String → Option α)
    (chain : List (String × CatalogContent)) : List (Option α) :=
  (chain.map (fun uc => (catalogItems uc.2).map (fun iu => scrapeItem iu.2))).flatten

/-! ### Item pages (gearbest_parser.py lines 78-205) -/

/-- One `a.cGoodsCrumb_itemLink` breadcrumb tag: its `href` attribute and
the text of its `span` child (when present). -/
structure CatTag where
  href : Option String
  span : Option String
deriving DecidableEq, Repr

/-- The `div.goodsIntro_infoWrap` container with the optional fragments
`parse_item` reads from it (each as the `get_text()` of the found tag). -/
structure InfoWrap where
  nameTag : Option String
  descriptionTag : Option String
  brandTag : Option String
  ratingTag : Option String
  reviewsTag : Option String
  faqTag : Option String
  priceTag : Option String
  discountTag : Option String
deriving DecidableEq, Repr

/-- A fetched item page: the info container, the canonical `link` tag
(outer `Option`: the tag; inner: its `href`), and the breadcrumb tags. -/
structure ItemPageDoc where
  infoWrap : Option InfoWrap
  canonical : Option (Option String)
  categoryTags : List CatTag
deriving DecidableEq, Repr

/-- The item dictionary built by `parse_item`; a key never written is
`none`.  `reviews` is written later by `scrape_item`, and
`discount_percentage` is read by `DataParser.create_item_data` but never
written by the scraper (it writes `discount` instead). -/
structure Item where
  timestamp : Option Nat
  item_name : Option String
  item_url : Option String
  item_id : Option String
  main_category_id : Option String
  main_category_name : Option String
  main_category_url : Option String
  middle_category_id : Option String
  middle_category_name : Option String
  middle_category_url : Option String
  granular_category_id : Option String
  granular_category_name : Option String
  granular_category_url : Option String
  description : Option String
  brand : Option String
  rating : Option String
  customer_reviews_count : Option String
  customer_answer_count : Option String
  price : Option String
  currency_type : Option String
  discount : Option String
  reviews : Option (List ReviewRecord)
  discount_percentage : Option String
deriving DecidableEq, Repr

/-- The empty item dictionary. -/
def emptyItem : Item :=
  ⟨none, none, none, none, none, none, none, none, none, none, none, none,
   none, none, none, none, none, none, none, none, none, none, none⟩

/-- Python `re.sub("[^0-9]", "", s)`: keep only the decimal digits. -/
def digitsOnly (s : String) : String :=
  ⟨s.data.filter Char.isDigit⟩

/-- `GearbestParser._parse_item_url(element, item_dict)`: skipped entirely
when the canonical tag is absent; `re.search(ID_PATTERN, None)` raises
`TypeError`; `.group()` on a failed search raises `AttributeError`; the
matched identifier is right-stripped of dots. -/
def parse_item_url (canonical : Option (Option String)) (it : Item) :
    Except PyErr Item :=
  match canonical with
  | none => .ok it
  | some none => .error .typeError
  | some (some href) =>
    match idSearch href with
    | none => .error .attributeError
    | some m =>
      .ok { it with item_url := some href, item_id := some (rstripChar m '.') }

/-- The category-name cleanup `get_text().strip().replace("\\", "")`. -/
def cleanCatName (s : String) : String :=
  ⟨s.trim.data.filter (· ≠ '\\')⟩

/-- Write the identifier of the category slot (`0` = main, `1` = middle,
`2` = granular, following `CATEGORY_HIERARCHY`). -/
def setCatId : Nat → String → Item → Item
  | 0, v, it => { it with main_category_id := some v }
  | 1, v, it => { it with middle_category_id := some v }
  | 2, v, it => { it with granular_category_id := some v }
  | _, _, it => it

/-- Write the name and URL of the category slot. -/
def setCatNameUrl : Nat → String → String → Item → Item
  | 0, n, u, it => { it with main_category_name := some n, main_category_url := some u }
  | 1, n, u, it => { it with middle_category_name := some n, middle_category_url := some u }
  | 2, n, u, it => { it with granular_category_name := some n, granular_category_url := some u }
  | _, _, _, it => it

/-- The `zip(CATEGORY_HIERARCHY, categories)` loop of
`GearbestParser._parse_categories`: at most three tags are consumed; each
one's identifier is always written (a missing `href` raises `TypeError`, a
non-matching one raises `AttributeError` through `.group()`), and the name
and URL are written only when the `span` child is present. -/
def parse_categories_aux : Nat → List CatTag → Item → Except PyErr Item
  | _, [], it => .ok it
  | slot, tag :: rest, it =>
    if slot ≥ 3 then .ok it
    else
      match tag.href with
      | none => .error .typeError
      | some href =>
        match idSearch href with
        | none => .error .attributeError
        | some m =>
          let it1 := setCatId slot (stripChar m '/') it
          let it2 :=
            match tag.span with
            | some nm => setCatNameUrl slot (cleanCatName nm) href it1
            | none => it1
          parse_categories_aux (slot + 1) rest it2

/-- `GearbestParser._parse_categories(categories, item_dict)` (an empty tag
list leaves the dictionary untouched). -/
def parse_categories_upd (tags : List CatTag) (it : Item) : Except PyErr Item :=
  parse_categories_aux 0 tags it

/-- The brand cleanup
`get_text().replace("Brand:\n", "").replace("\n", "").rstrip().strip()`. -/
def cleanBrand (s : String) : String :=
  (removeNl (s.replace "Brand:\n" "")).trim

/-- `GearbestParser._parse_price_element(price, item_dict)`: on a present
price tag, strip the text, split it with `parse_price` (default currency
`"$"`), and convert the price to `float` (raising `ValueError` when the
numeric part is not a valid float literal). -/
def parse_price_element (priceTag : Option String) (it : Item) :
    Except PyErr Item :=
  match priceTag with
  | none => .ok it
  | some t =>
    let price_data := (removeNl t).trim
    match parse_price (some price_data) "$" with
    | .error e => .error e
    | .ok pc =>
      if validFloatStr pc.1 then
        .ok { it with price := some pc.1, currency_type := some pc.2 }
      else .error .valueError

/-- The non-raising scalar fields read from the info container after the
categories (description, brand, rating, review and answer counts), in
source order; each `_parse_basic_element` call writes its key only when the
tag is present. -/
def parse_scalar_fields (info : InfoWrap) (it : Item) : Item :=
  let it1 :=
    match info.descriptionTag with
    | some t => { it with description := some t }
    | none => it
  let it2 :=
    match info.brandTag with
    | some t => { it1 with brand := some (cleanBrand t) }
    | none => it1
  let it3 :=
    match info.ratingTag with
    | some t => { it2 with rating := some ((removeNl t).trim) }
    | none => it2
  let it4 :=
    match info.reviewsTag with
    | some t => { it3 with customer_reviews_count := some (digitsOnly t) }
    | none => it3
  match info.faqTag with
  | some t => { it4 with customer_answer_count := some (digitsOnly t) }
  | none => it4

/-- The scalar fields read from the info container after the categories
(description, brand, rating, counts, price, discount), in source order. -/
def parse_item_fields (info : InfoWrap) (it : Item) : Except PyErr Item :=
  match parse_price_element info.priceTag (parse_scalar_fields info it) with
  | .error e => .error e
  | .ok it6 =>
    .ok (match info.discountTag with
         | some t => { it6 with discount := some (digitsOnly t) }
         | none => it6)

/-- The `item_name` assignment of `parse_item`
(`get_text().strip().replace("\\n", "")` on a present title tag). -/
def parse_name_stage (info : InfoWrap) (it : Item) : Item :=
  match info.nameTag with
  | some t => { it with item_name := some (removeNl t.trim) }
  | none => it

/-- The part of `parse_item` after the URL stage: categories, then the
scalar fields; any exception propagates. -/
def parse_item_tail (tags : List CatTag) (info : InfoWrap) (it2 : Item) :
    Except PyErr (Option Item) :=
  match parse_categories_upd tags it2 with
  | .error e => .error e
  | .ok it3 =>
    match parse_item_fields info it3 with
    | .error e => .error e
    | .ok it4 => .ok (some it4)

/-- `GearbestParser.parse_item(item_content)`: `None` when the
`goodsIntro_infoWrap` container is absent; otherwise the dictionary built
from the capture timestamp (`datetime.now()`, the `now` argument), the
name, the canonical URL and derived identifier, the categories and the
scalar fields.  Any exception from a helper propagates. -/
def parse_item (now : Nat) (doc : ItemPageDoc) : Except PyErr (Option Item) :=
  match doc.infoWrap with
  | none => .ok none
  | some info =>
    let it1 := parse_name_stage info { emptyItem with timestamp := some now }
    match parse_item_url doc.canonical it1 with
    | .error e => .error e
    | .ok it2 => parse_item_tail doc.categoryTags info it2

/-! ### Data assembly (data_classes/data_parser.py and the data classes) -/

/-- `data_classes.category_data.CategoryData`. -/
structure CategoryData where
  category_id : Option String
  name : Option String
  url : Option String
deriving DecidableEq, Repr

/-- `data_classes.review_data.ReviewData`. -/
structure ReviewData where
  user_name : Option String
  user_id : Option String
  review_title : Option String
  review_rating : Option String
  review_attributes : Option String
  review_text : String
  post_timestamp : Option DateTime
  item_id : Option String
deriving DecidableEq, Repr

/-- `data_classes.price_data.PriceData` (price kept as its numeric source
string). -/
structure PriceData where
  price : String
  currency : Option String
  timestamp : Nat
  discount_percentage : Option String
deriving DecidableEq, Repr

/-- `data_classes.item_data.ItemData`. -/
structure ItemData where
  item_id : Option String
  item_name : Option String
  item_url : Option String
  timestamp : Option Nat
  main_category : CategoryData
  middle_category : CategoryData
  granular_category : CategoryData
  item_description : Option String
  item_brand : Option String
  item_rating : Option String
  customer_reviews_count : Option String
  customer_answer_count : Option String
  price_history : List (Option PriceData)
  reviews : Option (List ReviewData)
deriving DecidableEq, Repr

/-- `DataParser.CURRENCY_TYPES`, the symbol-to-code table. -/
def CURRENCY_TYPES : List (String × String) :=
  [("₪", "NIS"), ("$", "USD"), ("£", "GBP"), ("C$", "CAD"), ("HK$", "HDK"),
   ("円", "JPY"), ("R$", "BRL"), ("DKr.", "DKK"), ("MXN$", "MXN"),
   ("Rp", "IDR"), ("€", "EUR"), ("AU$", "AUD"), ("CHF", "CHF"),
   ("NZ$", "NZD"), ("руб.", "RUB"), ("NKr.", "NOK"), ("SKr", "SEK"),
   ("Col$", "COP"), ("฿", "TBH"), ("zł", "PLN"), ("Ft", "HUF"),
   ("RM", "MYR"), ("lei", "RON"), ("₴", "UAH"), ("NT$", "TWD"),
   ("РСД", "RSD"), ("лв.", "BGN"), ("¥", "CNY"), ("Kn", "HRK"),
   ("د.إ", "AED"), ("₩", "KRW"), ("ARS$", "ARS"), ("TL", "TRY"),
   ("₦", "NGN"), ("R", "ZAR"), ("S$", "SGD"), ("ر.س", "SAR"),
   ("PHP", "PHP"), ("CL$", "CLP"), ("Kč", "CZK"), ("Rs", "INR"),
   ("د.م.", "MAD"), ("S/.", "PEN")]

/-- `DataParser.CURRENCY_TYPES.get(symbol)`. -/
def currencyLookup (s : String) : Option String :=
  (CURRENCY_TYPES.find? (fun p => p.1 = s)).map (·.2)

/-- `DataParser.create_review_data(review_data)`. -/
def create_review_data (r : ReviewRecord) : ReviewData :=
  ⟨r.user_name, r.user_id, r.review_title, r.review_rating,
   r.review_attributes, r.review_text, r.post_timestamp, r.item_id⟩

/-- `DataParser.create_item_data(item_data)`: builds the three category
records, collapses the granular category onto the middle (or main) one when
its identifier is falsy, converts the reviews (a falsy review list becomes
`None`), and records one price entry when price, currency and timestamp are
all truthy (a float is falsy at `0.0`, a datetime is always truthy). -/
def create_item_data (it : Item) : ItemData :=
  let main : CategoryData :=
    ⟨it.main_category_id, it.main_category_name, it.main_category_url⟩
  let middle : CategoryData :=
    ⟨it.middle_category_id, it.middle_category_name, it.middle_category_url⟩
  let granular0 : CategoryData :=
    ⟨it.granular_category_id, it.granular_category_name, it.granular_category_url⟩
  let granular :=
    if pyTruthyStr granular0.category_id then granular0
    else if pyTruthyStr middle.category_id then middle
    else main
  let reviews : Option (List ReviewData) :=
    match it.reviews with
    | some (r :: rs) => some ((r :: rs).map create_review_data)
    | _ => none
  let price_record : Option PriceData :=
    match it.price, it.currency_type, it.timestamp with
    | some p, some ct, some ts =>
      if pyTruthyNumStr (some p) && ct ≠ "" then
        some ⟨p, currencyLookup ct, ts, it.discount_percentage⟩
      else none
    | _, _, _ => none
  ⟨it.item_id, it.item_name, it.item_url, it.timestamp, main, middle,
   granular, it.description, it.brand, it.rating, it.customer_reviews_count,
   it.customer_answer_count, [price_record], reviews⟩

/-! ### Concrete fixtures used by witnesses and counterexamples -/

/-- A timestamp in the second `s` of 2019-01-01 00:00. -/
def tsW (s : Nat) : DateTime := ⟨2019, 1, 1, 0, 0, s⟩

/-- A bare review record posted at `tsW s`. -/
def rvW (s : Nat) : ReviewRecord :=
  ⟨none, none, none, none, none, "", some (tsW s), none⟩

/-- A review record whose timestamp failed to parse. -/
def rvNoTs : ReviewRecord := ⟨none, none, none, none, none, "", none, none⟩

/-- A catalog page with three tiles whose next control is disabled. -/
def catalogPage3 : CatalogContent :=
  ⟨some [some (some "i/a1.html"), some (some "i/a2.html"), some (some "i/a3.html")],
   none, some (some ⟨some ["pageNext", "disable"], none⟩)⟩

/-- A site holding only `catalogPage3` at URL `"cat"`. -/
def fetchSingle : String → Option CatalogContent :=
  fun u => if u = "cat" then some catalogPage3 else none

/-- First page of a two-page chain: one tile, enabled next link to `"P2"`. -/
def chainP1 : CatalogContent :=
  ⟨some [some (some "i/a1.html")], none,
   some (some ⟨some ["pageNext"], some "P2"⟩)⟩

/-- Second page of the chain: two tiles, next control disabled. -/
def chainP2 : CatalogContent :=
  ⟨some [some (some "i/b1.html"), some (some "i/b2.html")], none,
   some (some ⟨some ["pageNext", "disable"], some "P3"⟩)⟩

/-- The site of the two-page chain. -/
def chainFetch : String → Option CatalogContent :=
  fun u => if u = "P1" then some chainP1 else if u = "P2" then some chainP2 else none

/-- A catalog page whose product grid is present but holds no tiles. -/
def emptyGridPage : CatalogContent := ⟨some [], none, some none⟩

/-- A catalog page with neither the primary nor the fallback list. -/
def brokenPage : CatalogContent := ⟨none, none, none⟩

/-- A site holding the empty-grid page at `"E"` and the broken page at
`"B"`. -/
def fetchDegenerate : String → Option CatalogContent :=
  fun u => if u = "E" then some emptyGridPage
           else if u = "B" then some brokenPage else none

/-- An info container with every optional fragment absent. -/
def infoEmpty : InfoWrap := ⟨none, none, none, none, none, none, none, none⟩

/-- A breadcrumb tag whose href matches the identifier pattern. -/
def catTagW : CatTag := ⟨some "a-c_1/", some " Tablets "⟩

/-- A second breadcrumb tag whose href matches the identifier pattern. -/
def catTagW2 : CatTag := ⟨some "b-c_22/", some " Androids "⟩

/-- An item page with the empty info container and a canonical link whose
href matches the identifier pattern. -/
def itemDocW : ItemPageDoc := ⟨some infoEmpty, some (some "x/pp_1.html"), []⟩

/-- The record `parse_item` builds from `itemDocW` at capture time 5. -/
def itemW : Item :=
  { emptyItem with
    timestamp := some 5
    item_url := some "x/pp_1.html"
    item_id := some "pp_1" }

/-- An item dictionary holding only a main category identifier. -/
def itMainOnly : Item := { emptyItem with main_category_id := some "c_1" }

/-- An item dictionary holding a main and a middle category identifier. -/
def itMainMiddle : Item :=
  { emptyItem with
    main_category_id := some "c_1"
    middle_category_id := some "c_22" }

/-! ## Theorems -/

/-! ### Helper lemmas -/

theorem price_pass_currency_run (cs rest p c : List Char)
    (h : ∀ x ∈ cs, isPriceChar x = false) :
    price_pass (cs ++ rest) p c = price_pass rest p (c ++ cs) := by
  induction cs generalizing c with
  | nil => simp
  | cons ch cs ih =>
    have hch := h ch (by simp)
    simp only [List.cons_append, price_pass, hch, Bool.false_eq_true, if_false,
      List.append_eq]
    rw [ih (c ++ [ch]) (fun x hx => h x (by simp [hx]))]
    simp

theorem price_pass_price_run (cs p c : List Char)
    (h : ∀ x ∈ cs, isPriceChar x = true) :
    price_pass cs p c = (p ++ cs, c) := by
  induction cs generalizing p with
  | nil => simp [price_pass]
  | cons ch cs ih =>
    have hch := h ch (by simp)
    simp only [price_pass, hch, if_true]
    rw [ih (p ++ [ch]) (fun x hx => h x (by simp [hx]))]
    simp

theorem retrieve_review_deltas_eq_filter (w : DateTime)
    (reviews : List ReviewRecord)
    (h : ∀ r ∈ reviews, r.post_timestamp.isSome = true) :
    retrieve_review_deltas reviews w =
      .ok (reviews.filter (fun r => pyGtB r.post_timestamp w)) := by
  induction reviews with
  | nil => rfl
  | cons r rest ih =>
    obtain ⟨t, ht⟩ := Option.isSome_iff_exists.mp (h r (by simp))
    have ihr := ih (fun x hx => h x (by simp [hx]))
    simp only [retrieve_review_deltas, pyGtTimestamp, ht]
    cases hgt : dtLt w t with
    | true => simp [List.filter_cons, pyGtB, ht, hgt, ihr, Except.map]
    | false => simp [List.filter_cons, pyGtB, ht, hgt, ihr, Except.map]

/-! ### C1 -/

/-- C1: `_retrieve_review_deltas` keeps exactly the reviews whose post
timestamp is strictly greater than the watermark, preserving their order
(the result is the order-preserving filter of the batch); when the
watermark is `None`, `scrape_paginated_reviews_from_item` appends the whole
page batch unfiltered; and when a watermark is present and a page's
filtered batch is empty, pagination stops immediately and returns the
reviews accumulated so far. -/
theorem c1_filter_and_pagination_stop :
    (∀ (w : DateTime) (reviews : List ReviewRecord),
        (∀ r ∈ reviews, r.post_timestamp.isSome = true) →
        retrieve_review_deltas reviews w =
          .ok (reviews.filter (fun r => pyGtB r.post_timestamp w)) ∧
        (reviews.filter (fun r => pyGtB r.post_timestamp w)).Sublist reviews) ∧
    (∀ (pages : Nat → ReviewPageContent) (limit : Option Nat)
        (fuel idx count : Nat) (acc : List ReviewRecord)
        (r : ReviewRecord) (rs : List ReviewRecord),
        (pages idx).pageReviews = some (r :: rs) →
        (pages idx).hasNextElement = false →
        countLt count limit = true →
        scrape_paginated_reviews pages none limit (fuel + 1) idx count acc =
          .ok (acc ++ r :: rs)) ∧
    (∀ (pages : Nat → ReviewPageContent) (w : DateTime) (limit : Option Nat)
        (fuel idx count : Nat) (acc : List ReviewRecord)
        (r : ReviewRecord) (rs : List ReviewRecord),
        (pages idx).pageReviews = some (r :: rs) →
        retrieve_review_deltas (r :: rs) w = .ok [] →
        countLt count limit = true →
        scrape_paginated_reviews pages (some w) limit (fuel + 1) idx count acc =
          .ok acc) := by
  refine ⟨fun w reviews h => ⟨retrieve_review_deltas_eq_filter w reviews h,
    List.filter_sublist reviews⟩, ?_, ?_⟩
  · intro pages limit fuel idx count acc r rs h1 h2 h3
    simp [scrape_paginated_reviews, h1, h2, h3]
  · intro pages w limit fuel idx count acc r rs h1 h2 h3
    simp [scrape_paginated_reviews, h1, h2, h3]

/-- Witness for C1: the spec's own example, a watermark at second 10 and a
batch with seconds 12, 11, 10, 9, keeps exactly the first two; a page with
no watermark passes both its reviews through; a page whose filtered batch
is empty returns the accumulator unchanged. -/
theorem c1_filter_and_pagination_stop_witness :
    ((∀ r ∈ [rvW 12, rvW 11, rvW 10, rvW 9], r.post_timestamp.isSome = true) ∧
      retrieve_review_deltas [rvW 12, rvW 11, rvW 10, rvW 9] (tsW 10) =
        .ok ([rvW 12, rvW 11, rvW 10, rvW 9].filter
          (fun r => pyGtB r.post_timestamp (tsW 10))) ∧
      [rvW 12, rvW 11, rvW 10, rvW 9].filter
          (fun r => pyGtB r.post_timestamp (tsW 10)) = [rvW 12, rvW 11]) ∧
    scrape_paginated_reviews (fun _ => ⟨some [rvW 12, rvW 11], false, false⟩)
        none none 1 0 0 [] = .ok ([] ++ rvW 12 :: [rvW 11]) ∧
    scrape_paginated_reviews (fun _ => ⟨some [rvW 10, rvW 9], true, true⟩)
        (some (tsW 10)) none 1 0 0 [rvW 12] = .ok [rvW 12] :=
  ⟨⟨by decide,
    (c1_filter_and_pagination_stop.1 (tsW 10) [rvW 12, rvW 11, rvW 10, rvW 9]
      (by decide)).1, by decide⟩,
   c1_filter_and_pagination_stop.2.1 (fun _ => ⟨some [rvW 12, rvW 11], false, false⟩)
     none 0 0 0 [] (rvW 12) [rvW 11] rfl rfl rfl,
   c1_filter_and_pagination_stop.2.2 (fun _ => ⟨some [rvW 10, rvW 9], true, true⟩)
     (tsW 10) none 0 0 0 [rvW 12] (rvW 10) [rvW 9] rfl (by decide) rfl⟩

/-! ### C9 -/

/-- C9: with a non-null watermark, `_retrieve_review_deltas` compares each
review's `post_timestamp` with `>` and no null guard, so a batch containing
a review whose timestamp failed to parse (`None`) raises `TypeError`
instead of skipping or keeping that review. -/
theorem c9_null_timestamp_raises :
    ∀ (w : DateTime) (reviews : List ReviewRecord) (r : ReviewRecord),
      r ∈ reviews → r.post_timestamp = none →
      retrieve_review_deltas reviews w = .error .typeError := by
  intro w reviews r
  induction reviews with
  | nil => intro hmem _; exact absurd hmem (List.not_mem_nil r)
  | cons a rest ih =>
    intro hmem hnone
    rcases List.mem_cons.mp hmem with h | h
    · subst h
      simp [retrieve_review_deltas, pyGtTimestamp, hnone]
    · have hrec := ih h hnone
      cases hts : a.post_timestamp with
      | none => simp [retrieve_review_deltas, pyGtTimestamp, hts]
      | some t =>
        simp only [retrieve_review_deltas, pyGtTimestamp, hts]
        cases hgt : dtLt w t with
        | true => simp [hrec, Except.map]
        | false => simp [hrec]

/-- Witness for C9: a batch holding one dated review and one whose
timestamp is null raises `TypeError` against a watermark. -/
theorem c9_null_timestamp_raises_witness :
    (rvNoTs ∈ [rvW 12, rvNoTs] ∧ rvNoTs.post_timestamp = none) ∧
    retrieve_review_deltas [rvW 12, rvNoTs] (tsW 10) = .error .typeError :=
  ⟨⟨by decide, rfl⟩,
   c9_null_timestamp_raises (tsW 10) [rvW 12, rvNoTs] rvNoTs (by decide) rfl⟩

/-! ### C4 -/

/-- C4: the timestamp parse accepts the basic format `Mon D,YYYY` and the
complex format `Mon D,YYYY H:M:S`, but for an input matching neither
format the `ValueError` raised by the second `strptime` call (inside the
first `except` handler) propagates to the caller instead of yielding a
null timestamp. -/
theorem c4_timestamp_tryexcept_propagates :
    retrieve_review_time "Dec 5,2019" = .ok (some ⟨2019, 12, 5, 0, 0, 0⟩) ∧
    retrieve_review_time "Dec 5,2019 10:20:30" =
      .ok (some ⟨2019, 12, 5, 10, 20, 30⟩) ∧
    retrieve_review_time "garbage" = .error .valueError := by
  refine ⟨?_, ?_, ?_⟩ <;> decide

/-! ### C5 -/

/-- C5: for a price string made of an optional leading currency-symbol run
followed by a nonempty numeric run, `parse_price` returns exactly the
numeric substring and exactly the symbol (or the default currency when no
symbol is present); but for the empty string it returns the empty price
with the default currency, and for `None` it raises `TypeError` — not
`(None, None)`. -/
theorem c5_parse_price_split :
    (∀ (sym num : List Char) (d : String),
        (∀ x ∈ sym, isPriceChar x = false) →
        (∀ x ∈ num, isPriceChar x = true) → num ≠ [] →
        parse_price (some ⟨sym ++ num⟩) d =
          .ok (⟨num⟩, if sym = [] then d else ⟨sym⟩)) ∧
    parse_price (some "") "$" = .ok ("", "$") ∧
    parse_price none "$" = .error .typeError := by
  refine ⟨?_, by decide, by decide⟩
  intro sym num d hs hn _
  have h1 : price_pass (sym ++ num) [] [] = (num, sym) := by
    rw [price_pass_currency_run sym num [] [] hs, List.nil_append,
      price_pass_price_run num [] sym hn, List.nil_append]
  simp [parse_price, h1]

/-- Witness for C5: `"$267.83"` splits into the numeric run `267.83` and
the symbol `$`. -/
theorem c5_parse_price_split_witness :
    (∀ x ∈ ['$'], isPriceChar x = false) ∧
    (∀ x ∈ ['2', '6', '7', '.', '8', '3'], isPriceChar x = true) ∧
    parse_price (some ⟨['$'] ++ ['2', '6', '7', '.', '8', '3']⟩) "$" =
      .ok (⟨['2', '6', '7', '.', '8', '3']⟩,
           if (['$'] : List Char) = [] then "$" else ⟨['$']⟩) :=
  ⟨by decide, by decide,
   c5_parse_price_split.1 ['$'] ['2', '6', '7', '.', '8', '3'] "$"
     (by decide) (by decide) (by decide)⟩

/-! ### C2 -/

/-- Counterexample to C2: a reviews page holding one review element with
both the user-name tag and the `data-review-id` attribute absent still
returns that element's record — the data dictionary is always truthy, so
`if review_dict:` appends a record for every element. -/
theorem c2_counterexample_not_discarded :
    retrieve_reviews_from_item
        ⟨true, none, [⟨none, none, none, none, none, [], none⟩]⟩ =
      .ok (some [⟨none, none, none, none, none, "", none, none⟩]) := by
  decide

/-- C2 (amended): a review element lacking both user name and identifier is
NOT discarded; `retrieve_reviews_from_item` builds exactly one record per
review element, and an element with both user fields absent yields a record
whose user name and user id are null. -/
theorem c2_amended_every_element_kept :
    (∀ (item_id : Option String) (es : List ReviewElement)
        (recs : List ReviewRecord),
        build_review_records item_id es = .ok recs →
        recs.length = es.length) ∧
    (∀ (item_id : Option String) (e : ReviewElement) (r : ReviewRecord),
        e.userNameTag = none → e.dataReviewId = none →
        build_review_record item_id e = .ok r →
        r.user_name = none ∧ r.user_id = none) := by
  constructor
  · intro item_id es
    induction es with
    | nil => intro recs h; cases h; rfl
    | cons e rest ih =>
      intro recs h
      simp only [build_review_records] at h
      cases hb : build_review_record item_id e with
      | error err => rw [hb] at h; cases h
      | ok r =>
        rw [hb] at h
        cases hr : build_review_records item_id rest with
        | error err => rw [hr] at h; cases h
        | ok l =>
          rw [hr] at h
          cases h
          simp [ih l hr]
  · intro item_id e r h1 h2 hb
    simp only [build_review_record, retrieve_username_and_id_from_review,
      h1] at hb
    cases hd : retrieve_review_data_from_review e with
    | error err => rw [hd] at hb; cases hb
    | ok d =>
      rw [hd] at hb
      cases hb
      exact ⟨rfl, rfl⟩

/-- Witness for C2 (amended): one element missing both user fields yields
one record with both user fields null. -/
theorem c2_amended_every_element_kept_witness :
    ([(⟨none, none, none, none, none, "", none, none⟩ : ReviewRecord)].length =
      [(⟨none, none, none, none, none, [], none⟩ : ReviewElement)].length) ∧
    ((⟨none, none, none, none, none, "", none, none⟩ : ReviewRecord).user_name = none ∧
     (⟨none, none, none, none, none, "", none, none⟩ : ReviewRecord).user_id = none) :=
  ⟨c2_amended_every_element_kept.1 none
     [⟨none, none, none, none, none, [], none⟩]
     [⟨none, none, none, none, none, "", none, none⟩] (by decide),
   c2_amended_every_element_kept.2 none
     ⟨none, none, none, none, none, [], none⟩
     ⟨none, none, none, none, none, "", none, none⟩ rfl rfl (by decide)⟩

/-! ### C6 helper lemmas: the stages after `_parse_item_url` never touch
the `item_url` and `item_id` keys. -/

theorem setCatId_pres (slot : Nat) (v : String) (it : Item) :
    (setCatId slot v it).item_url = it.item_url ∧
    (setCatId slot v it).item_id = it.item_id := by
  rcases slot with _ | _ | _ | n <;> exact ⟨rfl, rfl⟩

theorem setCatNameUrl_pres (slot : Nat) (n u : String) (it : Item) :
    (setCatNameUrl slot n u it).item_url = it.item_url ∧
    (setCatNameUrl slot n u it).item_id = it.item_id := by
  rcases slot with _ | _ | _ | k <;> exact ⟨rfl, rfl⟩

theorem parse_categories_aux_pres :
    ∀ (tags : List CatTag) (slot : Nat) (it it' : Item),
      parse_categories_aux slot tags it = .ok it' →
      it'.item_url = it.item_url ∧ it'.item_id = it.item_id := by
  intro tags
  induction tags with
  | nil => intro slot it it' h; cases h; exact ⟨rfl, rfl⟩
  | cons tag rest ih =>
    intro slot it it' h
    simp only [parse_categories_aux] at h
    by_cases hs : slot ≥ 3
    · rw [if_pos hs] at h; cases h; exact ⟨rfl, rfl⟩
    · rw [if_neg hs] at h
      cases ht : tag.href with
      | none => simp only [ht] at h; exact Except.noConfusion h
      | some href =>
        simp only [ht] at h
        cases hm : idSearch href with
        | none => simp only [hm] at h; exact Except.noConfusion h
        | some m =>
          simp only [hm] at h
          cases hsp : tag.span with
          | none =>
            simp only [hsp] at h
            obtain ⟨hu, hi⟩ := ih (slot + 1) _ it' h
            exact ⟨hu.trans (setCatId_pres slot _ it).1,
                   hi.trans (setCatId_pres slot _ it).2⟩
          | some nm =>
            simp only [hsp] at h
            obtain ⟨hu, hi⟩ := ih (slot + 1) _ it' h
            exact ⟨(hu.trans (setCatNameUrl_pres slot _ _ _).1).trans
                     (setCatId_pres slot _ it).1,
                   (hi.trans (setCatNameUrl_pres slot _ _ _).2).trans
                     (setCatId_pres slot _ it).2⟩

theorem parse_scalar_fields_pres (info : InfoWrap) (it : Item) :
    (parse_scalar_fields info it).item_url = it.item_url ∧
    (parse_scalar_fields info it).item_id = it.item_id := by
  unfold parse_scalar_fields
  cases info.descriptionTag <;> cases info.brandTag <;> cases info.ratingTag <;>
    cases info.reviewsTag <;> cases info.faqTag <;> exact ⟨rfl, rfl⟩

theorem parse_price_element_pres (pt : Option String) (it it' : Item)
    (h : parse_price_element pt it = .ok it') :
    it'.item_url = it.item_url ∧ it'.item_id = it.item_id := by
  cases pt with
  | none =>
    simp only [parse_price_element] at h
    cases h; exact ⟨rfl, rfl⟩
  | some t =>
    simp only [parse_price_element] at h
    cases hpp : parse_price (some ((removeNl t).trim)) "$" with
    | error e => simp only [hpp] at h; exact Except.noConfusion h
    | ok pc =>
      simp only [hpp] at h
      by_cases hv : validFloatStr pc.1 = true
      · rw [if_pos hv] at h; cases h; exact ⟨rfl, rfl⟩
      · rw [if_neg hv] at h; exact Except.noConfusion h

theorem parse_item_fields_pres (info : InfoWrap) (it it' : Item)
    (h : parse_item_fields info it = .ok it') :
    it'.item_url = it.item_url ∧ it'.item_id = it.item_id := by
  simp only [parse_item_fields] at h
  cases hp : parse_price_element info.priceTag (parse_scalar_fields info it) with
  | error e => simp only [hp] at h; exact Except.noConfusion h
  | ok it6 =>
    simp only [hp] at h
    obtain ⟨hu6, hi6⟩ := parse_price_element_pres _ _ _ hp
    obtain ⟨hus, his⟩ := parse_scalar_fields_pres info it
    cases hd : info.discountTag with
    | none =>
      simp only [hd] at h; cases h
      exact ⟨hu6.trans hus, hi6.trans his⟩
    | some t =>
      simp only [hd] at h; cases h
      exact ⟨hu6.trans hus, hi6.trans his⟩

theorem parse_name_stage_pres (info : InfoWrap) (it : Item) :
    (parse_name_stage info it).item_url = it.item_url ∧
    (parse_name_stage info it).item_id = it.item_id := by
  unfold parse_name_stage
  cases info.nameTag <;> exact ⟨rfl, rfl⟩

theorem parse_item_tail_pres (tags : List CatTag) (info : InfoWrap)
    (it2 it : Item) (h : parse_item_tail tags info it2 = .ok (some it)) :
    it.item_url = it2.item_url ∧ it.item_id = it2.item_id := by
  simp only [parse_item_tail] at h
  cases hcat : parse_categories_upd tags it2 with
  | error e => simp only [hcat] at h; exact Except.noConfusion h
  | ok it3 =>
    simp only [hcat] at h
    cases hf : parse_item_fields info it3 with
    | error e => simp only [hf] at h; exact Except.noConfusion h
    | ok it4 =>
      simp only [hf] at h
      obtain rfl : it4 = it := by simpa using h
      obtain ⟨hu4, hi4⟩ := parse_item_fields_pres info it3 _ hf
      obtain ⟨hu3, hi3⟩ := parse_categories_aux_pres tags 0 it2 it3 hcat
      exact ⟨hu4.trans hu3, hi4.trans hi3⟩

/-! ### C6 -/

/-- Counterexample to C6: an item page whose info container is present but
whose canonical `link` tag is absent parses to a half-populated record with
a null item identifier and URL, not to `None`. -/
theorem c6_counterexample_half_populated :
    parse_item 0 ⟨some infoEmpty, none, []⟩ =
      .ok (some { emptyItem with timestamp := some 0 }) ∧
    ({ emptyItem with timestamp := some 0 } : Item).item_id = none ∧
    ({ emptyItem with timestamp := some 0 } : Item).item_url = none := by
  refine ⟨by decide, rfl, rfl⟩

/-- C6 (amended): `parse_item` returns `None` exactly when the product info
container is absent; a returned record carries a non-null identifier and
URL when the canonical link tag was present (with an href matching the
identifier pattern — otherwise the parse raises), and a record with null
identifier and URL when the canonical tag was absent. -/
theorem c6_amended_id_iff_canonical :
    (∀ (now : Nat) (doc : ItemPageDoc), doc.infoWrap = none →
        parse_item now doc = .ok none) ∧
    (∀ (now : Nat) (doc : ItemPageDoc) (it : Item),
        parse_item now doc = .ok (some it) →
        (∃ href m, doc.canonical = some (some href) ∧ idSearch href = some m ∧
           it.item_url = some href ∧ it.item_id = some (rstripChar m '.')) ∨
        (doc.canonical = none ∧ it.item_url = none ∧ it.item_id = none)) := by
  constructor
  · intro now doc h
    simp [parse_item, h]
  · intro now doc it h
    cases hw : doc.infoWrap with
    | none => simp [parse_item, hw] at h
    | some info =>
      simp only [parse_item, hw] at h
      cases hc : doc.canonical with
      | none =>
        right
        simp only [hc, parse_item_url] at h
        obtain ⟨hu, hi⟩ := parse_item_tail_pres _ _ _ _ h
        refine ⟨rfl, ?_, ?_⟩
        · rw [hu, (parse_name_stage_pres info _).1]; rfl
        · rw [hi, (parse_name_stage_pres info _).2]; rfl
      | some ohref =>
        cases ohref with
        | none =>
          simp only [hc, parse_item_url] at h
          exact Except.noConfusion h
        | some href =>
          left
          simp only [hc, parse_item_url] at h
          cases hm : idSearch href with
          | none => simp only [hm] at h; exact Except.noConfusion h
          | some m =>
            simp only [hm] at h
            obtain ⟨hu, hi⟩ := parse_item_tail_pres _ _ _ _ h
            exact ⟨href, m, rfl, hm, hu, hi⟩

/-- Witness for C6 (amended): a page without the info container parses to
`None`; a page with a canonical href matching the pattern parses to a
record whose identifier and URL are populated. -/
theorem c6_amended_id_iff_canonical_witness :
    parse_item 5 ⟨none, none, []⟩ = .ok none ∧
    ((∃ href m, itemDocW.canonical = some (some href) ∧ idSearch href = some m ∧
        itemW.item_url = some href ∧ itemW.item_id = some (rstripChar m '.')) ∨
     (itemDocW.canonical = none ∧ itemW.item_url = none ∧ itemW.item_id = none)) :=
  ⟨c6_amended_id_iff_canonical.1 5 ⟨none, none, []⟩ rfl,
   c6_amended_id_iff_canonical.2 5 itemDocW itemW (by decide)⟩

/-! ### C7 -/

/-- C7: a one-tag category chain populates only the main category; a
two-tag chain populates main and middle; `create_item_data` re-points the
granular category to the middle one when the granular identifier is falsy
and the middle identifier is truthy, else to the main one; and whenever any
category level has a truthy identifier, the assembled record's granular
(most specific) category has a truthy identifier. -/
theorem c7_granular_category_collapse :
    (∀ (tag : CatTag) (h nm m : String) (it : Item),
        tag.href = some h → tag.span = some nm → idSearch h = some m →
        parse_categories_upd [tag] it = .ok
          { it with
            main_category_id := some (stripChar m '/')
            main_category_name := some (cleanCatName nm)
            main_category_url := some h }) ∧
    (∀ (t1 t2 : CatTag) (h1 nm1 m1 h2 nm2 m2 : String) (it : Item),
        t1.href = some h1 → t1.span = some nm1 → idSearch h1 = some m1 →
        t2.href = some h2 → t2.span = some nm2 → idSearch h2 = some m2 →
        parse_categories_upd [t1, t2] it = .ok
          { it with
            main_category_id := some (stripChar m1 '/')
            main_category_name := some (cleanCatName nm1)
            main_category_url := some h1
            middle_category_id := some (stripChar m2 '/')
            middle_category_name := some (cleanCatName nm2)
            middle_category_url := some h2 }) ∧
    (∀ it : Item, pyTruthyStr it.granular_category_id = false →
        pyTruthyStr it.middle_category_id = false →
        (create_item_data it).granular_category =
          (create_item_data it).main_category) ∧
    (∀ it : Item, pyTruthyStr it.granular_category_id = false →
        pyTruthyStr it.middle_category_id = true →
        (create_item_data it).granular_category =
          (create_item_data it).middle_category) ∧
    (∀ it : Item,
        (pyTruthyStr it.main_category_id = true ∨
         pyTruthyStr it.middle_category_id = true ∨
         pyTruthyStr it.granular_category_id = true) →
        pyTruthyStr (create_item_data it).granular_category.category_id = true) := by
  refine ⟨?_, ?_, ?_, ?_, ?_⟩
  · intro tag h nm m it ht hsp hm
    simp [parse_categories_upd, parse_categories_aux, ht, hsp, hm,
      setCatId, setCatNameUrl]
  · intro t1 t2 h1 nm1 m1 h2 nm2 m2 it ht1 hsp1 hm1 ht2 hsp2 hm2
    simp [parse_categories_upd, parse_categories_aux, ht1, hsp1, hm1,
      ht2, hsp2, hm2, setCatId, setCatNameUrl]
  · intro it hg hmid
    simp [create_item_data, hg, hmid]
  · intro it hg hmid
    simp [create_item_data, hg, hmid]
  · intro it hdisj
    cases hg : pyTruthyStr it.granular_category_id with
    | true => simp [create_item_data, hg]
    | false =>
      cases hmid : pyTruthyStr it.middle_category_id with
      | true => simp [create_item_data, hg, hmid]
      | false =>
        rcases hdisj with hmain | h | h
        · simp [create_item_data, hg, hmid, hmain]
        · rw [hmid] at h; exact Bool.noConfusion h
        · rw [hg] at h; exact Bool.noConfusion h

/-- Witness for C7: a one-tag chain collapses granular onto main, a
two-tag chain onto middle, on concrete dictionaries. -/
theorem c7_granular_category_collapse_witness :
    parse_categories_upd [catTagW] emptyItem = .ok
      { emptyItem with
        main_category_id := some (stripChar "c_1/" '/')
        main_category_name := some (cleanCatName " Tablets ")
        main_category_url := some "a-c_1/" } ∧
    (create_item_data itMainOnly).granular_category =
      (create_item_data itMainOnly).main_category ∧
    (create_item_data itMainMiddle).granular_category =
      (create_item_data itMainMiddle).middle_category ∧
    pyTruthyStr (create_item_data itMainOnly).granular_category.category_id = true :=
  ⟨c7_granular_category_collapse.1 catTagW "a-c_1/" " Tablets " "c_1/" emptyItem
     rfl rfl (by decide),
   c7_granular_category_collapse.2.2.1 itMainOnly rfl rfl,
   c7_granular_category_collapse.2.2.2.1 itMainMiddle rfl rfl,
   c7_granular_category_collapse.2.2.2.2 itMainOnly (Or.inl (by decide))⟩

/-! ### Catalog traversal lemmas -/

theorem catalog_item_loop_inf {α : Type} (scrape : String → Option α) :
    ∀ (items : List (String × String)) (c : Nat),
      (catalog_item_loop scrape none items c).1 =
        items.map (fun iu => scrape iu.2) := by
  intro items
  induction items with
  | nil => intro c; rfl
  | cons iu rest ih =>
    intro c
    simp [catalog_item_loop, maxLtCount, ih]

theorem scrape_none_current {α : Type} (fetch : String → Option CatalogContent)
    (scrape : String → Option α) (mx : Option Nat) :
    ∀ (fuel c : Nat),
      scrape_paginated_catalog fetch scrape mx fuel none c = ([], none) := by
  intro fuel c
  cases fuel <;> rfl

theorem chain_traversal {α : Type} (fetch : String → Option CatalogContent)
    (scrape : String → Option α) :
    ∀ (chain : List (String × CatalogContent)) (fuel cnt : Nat),
      chainOk fetch chain = true → chain.length ≤ fuel →
      scrape_paginated_catalog fetch scrape none fuel (chainStart chain) cnt =
        (chainOutputs scrape chain, none) := by
  intro chain
  induction chain with
  | nil =>
    intro fuel cnt _ _
    rw [chainStart, scrape_none_current]
    simp [chainOutputs]
  | cons uc rest ih =>
    obtain ⟨u, c⟩ := uc
    intro fuel cnt hok hlen
    cases fuel with
    | zero => simp at hlen
    | succ f =>
      simp only [chainOk, Bool.and_eq_true, decide_eq_true_eq] at hok
      obtain ⟨⟨⟨hf, hne⟩, hnext⟩, hrest⟩ := hok
      cases hp : parse_catalog_content (some c) with
      | error e => rw [hp] at hne; simp [isOkNonempty] at hne
      | ok l =>
        cases l with
        | nil => rw [hp] at hne; simp [isOkNonempty] at hne
        | cons iu ius =>
          have hitems : catalogItems c = iu :: ius := by
            simp [catalogItems, hp]
          cases rest with
          | nil =>
            have hnext2 : retrieve_next_page (some c) = .ok none := by
              simpa using hnext
            simp [chainStart, scrape_paginated_catalog, countLt, hf, hp, hnext2,
              scrape_none_current, chainOutputs, hitems, catalog_item_loop_inf]
          | cons v rest2 =>
            obtain ⟨u2, c2⟩ := v
            have hnext2 : retrieve_next_page (some c) = .ok (some u2) := by
              simpa using hnext
            have hlen2 : ((u2, c2) :: rest2).length ≤ f := by
              simp only [List.length_cons] at hlen ⊢
              omega
            have hrec := ih f (catalog_item_loop scrape none (iu :: ius) cnt).2
              hrest hlen2
            rw [show chainStart ((u2, c2) :: rest2) = some u2 from rfl] at hrec
            simp [chainStart, scrape_paginated_catalog, countLt, hf, hp, hnext2,
              hrec, chainOutputs, hitems, catalog_item_loop_inf]

/-! ### C8 -/

/-- C8: `retrieve_next_page` returns `None` for a page whose next control
carries the `disable` class; and for every finite chain of fetched catalog
pages, each parsing to a nonempty item list and linking to the next page's
URL with the last page's next control disabled, the traversal with no
product limit terminates (any iteration budget of at least the chain length
gives the same value) and yields exactly the concatenation, in page order,
of every page's item records. -/
theorem c8_chain_traversal_concat :
    (∀ (c : CatalogContent) (a : NextAnchor) (cls : List String),
        c.pagesDiv = some (some a) → a.classes = some cls →
        "disable" ∈ cls → retrieve_next_page (some c) = .ok none) ∧
    (∀ (α : Type) (fetch : String → Option CatalogContent)
        (scrape : String → Option α)
        (chain : List (String × CatalogContent)) (fuel : Nat),
        chainOk fetch chain = true → chain.length ≤ fuel →
        scrape_paginated_catalog fetch scrape none fuel (chainStart chain) 0 =
          (chainOutputs scrape chain, none)) := by
  constructor
  · intro c a cls hdiv hcls hmem
    simp [retrieve_next_page, hdiv, hcls, hmem]
  · intro α fetch scrape chain fuel hok hlen
    exact chain_traversal fetch scrape chain fuel 0 hok hlen

/-- Witness for C8: a concrete two-page chain (one tile, then two tiles,
second page's next control disabled) yields the three records in page
order; the disabled control maps to a `None` next page. -/
theorem c8_chain_traversal_concat_witness :
    retrieve_next_page (some chainP2) = .ok none ∧
    chainOk chainFetch [("P1", chainP1), ("P2", chainP2)] = true ∧
    scrape_paginated_catalog chainFetch (fun u => some u) none 2
        (chainStart [("P1", chainP1), ("P2", chainP2)]) 0 =
      (chainOutputs (fun u => some u) [("P1", chainP1), ("P2", chainP2)], none) :=
  ⟨c8_chain_traversal_concat.1 chainP2 ⟨some ["pageNext", "disable"], some "P3"⟩
     ["pageNext", "disable"] rfl rfl (by decide),
   by decide,
   c8_chain_traversal_concat.2 String chainFetch (fun u => some u)
     [("P1", chainP1), ("P2", chainP2)] 2 (by decide) (by decide)⟩

/-! ### C3 -/

/-- C3: the quota check `max_products < parsed_count` admits one item past
the requested maximum: with `max_products = 1` and a single page of three
parseable items, the traversal yields two successfully parsed records (the
claim's boundary — at most one, stopping once the parsed count equals the
maximum — does not hold of the code). -/
theorem c3_quota_admits_extra_item :
    scrape_paginated_catalog fetchSingle (fun u => some u) (some 1) 5
        (some "cat") 0 = ([some "i/a1.html", some "i/a2.html"], none) ∧
    ([some "i/a1.html", some "i/a2.html"] : List (Option String)).countP
        (fun o => o.isSome) = 2 := by
  exact ⟨by decide, by decide⟩

/-! ### C10 -/

/-- C10: when a fetched catalog page parses to an empty item list the
traversal yields one null record and raises `ParsingError`; when the
catalog parse throws, the `except` clause yields a null record, the falsy
guard yields a second one, and `ParsingError` is raised — in both cases the
traversal stops there instead of continuing to the next page. -/
theorem c10_empty_or_throwing_page_aborts :
    ∀ (α : Type) (fetch : String → Option CatalogContent)
      (scrape : String → Option α) (mx : Option Nat) (fuel pc : Nat)
      (url : String) (content : CatalogContent),
      fetch url = some content → countLt pc mx = true →
      (parse_catalog_content (some content) = .ok [] →
        scrape_paginated_catalog fetch scrape mx (fuel + 1) (some url) pc =
          ([none], some .parsingError)) ∧
      (∀ e, parse_catalog_content (some content) = .error e →
        scrape_paginated_catalog fetch scrape mx (fuel + 1) (some url) pc =
          ([none, none], some .parsingError)) := by
  intro α fetch scrape mx fuel pc url content hf hcnt
  constructor
  · intro hp
    simp [scrape_paginated_catalog, hf, hp, hcnt]
  · intro e hp
    simp [scrape_paginated_catalog, hf, hp, hcnt]

/-- Witness for C10: a page whose grid holds zero tiles yields one null
record and a `ParsingError`; a page with no grid at all (the parse raises)
yields two null records and a `ParsingError`. -/
theorem c10_empty_or_throwing_page_aborts_witness :
    (parse_catalog_content (some emptyGridPage) = .ok [] ∧
     scrape_paginated_catalog fetchDegenerate (fun u => some u) none 1
        (some "E") 0 = ([none], some .parsingError)) ∧
    (parse_catalog_content (some brokenPage) = .error .attributeError ∧
     scrape_paginated_catalog fetchDegenerate (fun u => some u) none 1
        (some "B") 0 = ([none, none], some .parsingError)) :=
  ⟨⟨by decide,
    (c10_empty_or_throwing_page_aborts String fetchDegenerate (fun u => some u)
      none 0 0 "E" emptyGridPage rfl rfl).1 (by decide)⟩,
   ⟨by decide,
    (c10_empty_or_throwing_page_aborts String fetchDegenerate (fun u => some u)
      none 0 0 "B" brokenPage rfl rfl).2 .attributeError (by decide)⟩⟩
